import Mathlib

/-!
Shallow embedding of the Sidekick orchestration core
(`src/sidekick-app/sidekick.py`): the message and run-state data model, the
Worker, Tools and Evaluator nodes, the two routers, the graph driver and the
superstep entry point, plus the resource cleanup path. External effects (the
two LLM calls and tool execution) are parametrised by oracle functions; the
LangGraph `add_messages` reducer is modelled by its documented append
semantics.
-/

namespace Sidekick

/-- Role of one conversation turn (system, user/human, assistant/AI, tool),
mirroring the LangChain message classes used by `sidekick.py`. -/
inductive Role where
  | system
  | user
  | assistant
  | tool
deriving DecidableEq

/-- One tool invocation requested by an assistant message: a tool name, its
arguments and the correlation id (the `tool_calls` entries of an AIMessage). -/
structure ToolCall where
  name : String
  args : String
  id : String
deriving DecidableEq

/-- One conversation message: role, text content, the (possibly empty) list of
requested tool calls, and for tool-result messages the id of the originating
call. Non-assistant messages carry no tool calls. -/
structure Msg where
  role : Role
  content : String
  tool_calls : List ToolCall
  tool_call_id : Option String
deriving DecidableEq

/-- The LangGraph `State` TypedDict of `sidekick.py`: the message sequence
(whose channel uses the `add_messages` append reducer), the success criteria,
the optional evaluator feedback, and the two evaluation flags. -/
structure State where
  messages : List Msg
  success_criteria : String
  feedback_on_work : Option String
  success_criteria_met : Bool
  user_input_needed : Bool
deriving DecidableEq

/-- The `EvaluatorOutput` pydantic model: the structured result of the
evaluator LLM call. -/
structure EvaluatorOutput where
  feedback : String
  success_criteria_met : Bool
  user_input_needed : Bool
deriving DecidableEq

/-- The reply of the tool-bound worker LLM (`worker_llm_with_tools.invoke`):
an AIMessage, i.e. text content plus a possibly empty list of tool calls. -/
structure LLMReply where
  content : String
  tool_calls : List ToolCall
deriving DecidableEq

/-- The AIMessage built from a worker-LLM reply. -/
def LLMReply.toMsg (r : LLMReply) : Msg :=
  Msg.mk Role.assistant r.content r.tool_calls none

/-- Python truthiness of an optional string (`if state.get("feedback_on_work"):`):
`None` and the empty string are falsy. -/
def truthy : Option String → Bool
  | none => false
  | some s => decide (s ≠ "")

/-- The fixed head of the worker system prompt, up to the interpolated current
date and time. -/
def worker_prompt_head : String :=
  "You are a helpful assistant that can use tools to complete tasks.\n    You keep working on a task until either you have a question or clarification for the user, or the success criteria is met.\n    You have many tools to help you, including tools to browse the internet, navigating and retrieving web pages.\n    You have a tool to run python code, but note that you would need to include a print() statement if you wanted to receive output.\n    The current date and time is "

/-- The middle of the worker system prompt, between the timestamp and the
interpolated success criteria. -/
def worker_prompt_mid : String :=
  "\n\n    This is the success criteria:\n    "

/-- The tail of the worker system prompt, after the success criteria. -/
def worker_prompt_tail : String :=
  "\n    You should reply either with a question for the user about this assignment, or with your final response.\n    If you have a question for the user, you need to reply by clearly stating your question. An example might be:\n\n    Question: please clarify whether you want a summary or a detailed answer\n\n    If you've finished, reply with the final answer, and don't ask a question; simply reply with the answer.\n    "

/-- The part of the feedback block prepended to the interpolated prior
feedback. -/
def worker_feedback_head : String :=
  "\n    Previously you thought you completed the assignment, but your reply was rejected because the success criteria was not met.\n    Here is the feedback on why this was rejected:\n    "

/-- The part of the feedback block appended after the interpolated prior
feedback. -/
def worker_feedback_tail : String :=
  "\n    With this feedback, please continue the assignment, ensuring that you meet the success criteria or have a question for the user."

/-- The system prompt the worker builds: task framing, the current timestamp,
the verbatim success criteria, and, when `feedback_on_work` is truthy, the
appended feedback block. -/
def build_system_message (now criteria : String) (feedback_on_work : Option String) : String :=
  let base := worker_prompt_head ++ now ++ worker_prompt_mid ++ criteria ++ worker_prompt_tail
  match feedback_on_work with
  | none => base
  | some fb =>
      if fb = "" then base
      else base ++ worker_feedback_head ++ fb ++ worker_feedback_tail

/-- The worker loop `for message in messages: if isinstance(message, SystemMessage):
message.content = system_message` acting on one message: a system message has
its content replaced in place, any other message is untouched. -/
def replace_system_content (prompt : String) (m : Msg) : Msg :=
  if m.role = Role.system then Msg.mk m.role prompt m.tool_calls m.tool_call_id else m

/-- The message list the worker passes to the tool-bound LLM: when a system
message is present every system message has had its content replaced in place,
otherwise a fresh system message is prepended to the (unchanged) history. -/
def worker_llm_input (prompt : String) (messages : List Msg) : List Msg :=
  if messages.any (fun m => decide (m.role = Role.system)) then
    messages.map (replace_system_content prompt)
  else
    Msg.mk Role.system prompt [] none :: messages

/-- The Worker node, as it acts on the graph state. The node returns the
update dict containing only the LLM response; the `add_messages` reducer
appends it to the message channel. The in-place content replacement performed
on system messages by the worker loop mutates the channel's message objects,
so the resulting state's messages are the incoming ones with system contents
replaced, followed by the response. All other state fields are untouched. -/
def worker (now : String) (llm : List Msg → LLMReply) (s : State) : State :=
  let prompt := build_system_message now s.success_criteria s.feedback_on_work
  let response := (llm (worker_llm_input prompt s.messages)).toMsg
  State.mk (s.messages.map (replace_system_content prompt) ++ [response])
    s.success_criteria s.feedback_on_work s.success_criteria_met s.user_input_needed

/-- The worker router: `"tools"` when the last message carries one or more
tool calls, `"evaluator"` otherwise; `none` models the IndexError that
`state["messages"][-1]` raises on an empty history. -/
def worker_router (s : State) : Option String :=
  match s.messages.getLast? with
  | none => none
  | some last_message =>
      some (if last_message.tool_calls ≠ [] then "tools" else "evaluator")

/-- One step of `format_conversation`'s loop: a human turn is rendered with
the "User: " prefix, an AI turn with the "Assistant: " prefix (an empty
content, e.g. a turn holding only tool calls, becomes the "[Tools use]"
placeholder), any other message adds nothing. -/
def format_step (conversation : String) (message : Msg) : String :=
  match message.role with
  | Role.user => conversation ++ "User: " ++ message.content ++ "\n"
  | Role.assistant =>
      conversation ++ "Assistant: " ++
        (if message.content = "" then "[Tools use]" else message.content) ++ "\n"
  | _ => conversation

/-- The evaluator's transcript formatting: a fold of `format_step` over the
whole message sequence, started from the fixed header. -/
def format_conversation (messages : List Msg) : String :=
  messages.foldl format_step "Conversation history:\n\n"

/-- The fixed evaluator system prompt. -/
def evaluator_system_message : String :=
  "You are an evaluator that determines if a task has been completed successfully by an Assistant.\n    Assess the Assistant's last response based on the given criteria. Respond with your feedback, and with your decision on whether the success criteria has been met,\n    and whether more input is needed from the user."

/-- The head of the evaluator user prompt, before the interpolated
transcript. -/
def evaluator_user_head : String :=
  "You are evaluating a conversation between the User and Assistant. You decide what action to take based on the last response from the Assistant.\n\n    The entire conversation with the assistant, with the user's original request and all replies, is:\n    "

/-- The part of the evaluator user prompt between the transcript and the
success criteria. -/
def evaluator_user_mid1 : String :=
  "\n\n    The success criteria for this assignment is:\n    "

/-- The part of the evaluator user prompt between the success criteria and the
final response. -/
def evaluator_user_mid2 : String :=
  "\n\n    And the final response from the Assistant that you are evaluating is:\n    "

/-- The tail of the evaluator user prompt after the final response. -/
def evaluator_user_tail : String :=
  "\n\n    Respond with your feedback, and decide if the success criteria is met by this response.\n    Also, decide if more user input is required, either because the assistant has a question, needs clarification, or seems to be stuck and unable to answer without help.\n\n    The Assistant has access to a tool to write files. If the Assistant says they have written a file, then you can assume they have done so.\n    Overall you should give the Assistant the benefit of the doubt if they say they've done something. But you should reject if you feel that more work should go into this.\n\n    "

/-- The block appended to the evaluator user prompt when prior feedback is
present. -/
def evaluator_feedback_block (fb : String) : String :=
  "Also, note that in a prior attempt from the Assistant, you provided this feedback: " ++ fb ++ "\n" ++
    "If you're seeing the Assistant repeating the same mistakes, then consider responding that user input is required."

/-- The two-message prompt the evaluator sends to the structured LLM: its
fixed system message, then the user message built from the transcript, the
success criteria, the final assistant response and, when feedback is present,
the prior-feedback block. The final response is the content of the last
message (`state["messages"][-1].content`; the graph only reaches the
evaluator with a non-empty history, the empty default models that). -/
def evaluator_messages (s : State) : List Msg :=
  let last_response := ((s.messages.getLast?).map Msg.content).getD ""
  let base := evaluator_user_head ++ format_conversation s.messages ++
    evaluator_user_mid1 ++ s.success_criteria ++ evaluator_user_mid2 ++
    last_response ++ evaluator_user_tail
  let user_message :=
    if truthy s.feedback_on_work then
      base ++ evaluator_feedback_block (s.feedback_on_work.getD "")
    else base
  [Msg.mk Role.system evaluator_system_message [] none,
   Msg.mk Role.user user_message [] none]

/-- The Evaluator node: invokes the structured LLM and returns the update
dict, which appends one assistant message carrying the prefixed feedback and
overwrites `feedback_on_work`, `success_criteria_met` and `user_input_needed`
from the result; `success_criteria` is not part of the update. -/
def evaluator (llm : List Msg → EvaluatorOutput) (s : State) : State :=
  let eval_result := llm (evaluator_messages s)
  State.mk
    (s.messages ++
      [Msg.mk Role.assistant ("Evaluator Feedback on this answer: " ++ eval_result.feedback) [] none])
    s.success_criteria
    (some eval_result.feedback)
    eval_result.success_criteria_met
    eval_result.user_input_needed

/-- Route based on evaluation: `"END"` when the criteria are met or user input
is needed, else `"worker"`. -/
def route_based_on_evaluation (s : State) : String :=
  if s.success_criteria_met || s.user_input_needed then "END" else "worker"

/-- Modelled from the spec: the Tools node is LangGraph's prebuilt `ToolNode`,
which is not part of this repository's sources. Per the spec's tool-dispatch
contract, it invokes every tool call carried by the last message and appends
one tool-result message per call, tagged with the originating call id; it
updates nothing but `messages`. -/
def tools_node (exec : ToolCall → String) (s : State) : State :=
  let calls := ((s.messages.getLast?).map Msg.tool_calls).getD []
  State.mk
    (s.messages ++ calls.map (fun c => Msg.mk Role.tool (exec c) [] (some c.id)))
    s.success_criteria s.feedback_on_work s.success_criteria_met s.user_input_needed

/-- The compiled graph of `build_graph`, driven from START to END: START goes
to the worker; after the worker the worker router picks "tools" (then back to
the worker) or "evaluator"; after the evaluator `route_based_on_evaluation`
either ends the run or returns to the worker. `fuel` bounds the number of
node-to-node steps (the source graph has no bound; `none` is running out of
fuel, or the unreachable empty-history router case). -/
def run_graph (now : String) (wllm : List Msg → LLMReply) (ellm : List Msg → EvaluatorOutput)
    (exec : ToolCall → String) : Nat → State → Option State
  | 0, _ => none
  | Nat.succ fuel, s =>
      match worker_router (worker now wllm s) with
      | none => none
      | some r =>
          if r = "tools" then
            run_graph now wllm ellm exec fuel (tools_node exec (worker now wllm s))
          else
            if route_based_on_evaluation (evaluator ellm (worker now wllm s)) = "END" then
              some (evaluator ellm (worker now wllm s))
            else
              run_graph now wllm ellm exec fuel (evaluator ellm (worker now wllm s))

/-- The default success criteria substituted for a falsy (empty) input
(`success_criteria or "The answer should be clear and accurate"`). -/
def default_success_criteria : String := "The answer should be clear and accurate"

/-- The state value `run_superstep` passes to `graph.ainvoke`, merged into the
checkpointed state loaded for the session's thread id: the `messages` channel
has the `add_messages` reducer, so the new user message is appended to the
loaded messages, while every other key overwrites its channel with the dict's
value — `feedback_on_work` included, since the dict passes it as `None`
explicitly. -/
def superstep_init (loaded : State) (message success_criteria : String) : State :=
  State.mk
    (loaded.messages ++ [Msg.mk Role.user message [] none])
    (if success_criteria = "" then default_success_criteria else success_criteria)
    none
    false
    false

/-- One entry of the Gradio-visible chat history, a `{"role": …, "content": …}`
dict. -/
structure ChatEntry where
  role : String
  content : String
deriving DecidableEq

/-- The superstep entry point `run_superstep`: builds the input state, drives
the graph to END, and returns the caller's history extended with the user
dict, the reply dict built from `result["messages"][-2].content`, and the
feedback dict built from `result["messages"][-1].content`. `none` models a
run that does not terminate within `fuel` (the source awaits it without
bound) or a terminal state with fewer than two messages (an IndexError). -/
def run_superstep (now : String) (wllm : List Msg → LLMReply) (ellm : List Msg → EvaluatorOutput)
    (exec : ToolCall → String) (fuel : Nat) (loaded : State)
    (message success_criteria : String) (history : List ChatEntry) : Option (List ChatEntry) :=
  match run_graph now wllm ellm exec fuel (superstep_init loaded message success_criteria) with
  | none => none
  | some result =>
      match result.messages.getLast?, result.messages.dropLast.getLast? with
      | some last, some penult =>
          some (history ++
            [ChatEntry.mk "user" message,
             ChatEntry.mk "assistant" penult.content,
             ChatEntry.mk "assistant" last.content])
      | _, _ => none

/-- One externally visible resource-release action `cleanup` can perform. -/
inductive CleanupAction where
  | create_task_browser_close
  | create_task_playwright_stop
  | run_browser_close
  | run_playwright_stop
deriving DecidableEq

/-- The `cleanup` method: when `self.browser` is falsy (`None`) the guarded
body is skipped entirely — no statement runs, so nothing can raise — and no
release action is performed. Otherwise it schedules browser close and
playwright stop on the running loop, or, when `asyncio.get_running_loop()`
raises RuntimeError (no loop), runs them directly. The returned list is the
sequence of release actions performed. -/
def cleanup (browser playwright : Option Unit) (loop_running : Bool) : List CleanupAction :=
  match browser with
  | none => []
  | some _ =>
      if loop_running then
        [CleanupAction.create_task_browser_close] ++
          (if playwright.isSome then [CleanupAction.create_task_playwright_stop] else [])
      else
        [CleanupAction.run_browser_close] ++
          (if playwright.isSome then [CleanupAction.run_playwright_stop] else [])

/-- Worker LLM oracle for concrete runs: always replies "4" with no tool
calls. -/
def ex_worker_llm : List Msg → LLMReply := fun _ => LLMReply.mk "4" []

/-- Evaluator LLM oracle for concrete runs: approves with feedback "Good". -/
def ex_eval_llm : List Msg → EvaluatorOutput := fun _ => EvaluatorOutput.mk "Good" true false

/-- Tool executor oracle for concrete runs. -/
def ex_exec : ToolCall → String := fun _ => "ok"

/-- A state holding one user message and no system message. -/
def ex_state : State :=
  State.mk [Msg.mk Role.user "What is 2+2?" [] none] "numerically correct" none false false

/-- An empty freshly created session state. -/
def ex_loaded : State := State.mk [] "" none false false

/-- A concrete tool call. -/
def ex_tool_call : ToolCall := ToolCall.mk "search" "query" "call_1"

/-- A state whose last message carries one tool call. -/
def ex_tool_state : State :=
  State.mk [Msg.mk Role.user "hi" [] none, Msg.mk Role.assistant "" [ex_tool_call] none]
    "c" none false false

/-- The terminal state of the concrete one-pass run used by the witnesses. -/
def ex_final : State :=
  State.mk
    [Msg.mk Role.user "What is 2+2?" [] none,
     Msg.mk Role.assistant "4" [] none,
     Msg.mk Role.assistant "Evaluator Feedback on this answer: Good" [] none]
    "numerically correct" (some "Good") true false

/-- Per-turn rendering of the transcript, as the spec describes it: user
turns get the "User: " prefix, assistant turns the "Assistant: " prefix with
the "[Tools use]" placeholder when there is no text, all other turns are
skipped. -/
def render_turn (m : Msg) : String :=
  match m.role with
  | Role.user => "User: " ++ m.content ++ "\n"
  | Role.assistant =>
      "Assistant: " ++ (if m.content = "" then "[Tools use]" else m.content) ++ "\n"
  | _ => ""

/-- Linear concatenation of the per-turn renderings. -/
def transcript : List Msg → String
  | [] => ""
  | m :: rest => render_turn m ++ transcript rest

/-- Replacing system contents in a list without system messages changes
nothing. -/
lemma map_replace_of_no_system (prompt : String) (l : List Msg)
    (h : ∀ m ∈ l, m.role ≠ Role.system) : l.map (replace_system_content prompt) = l := by
  induction l with
  | nil => rfl
  | cons m rest ih =>
      have hm : m.role ≠ Role.system := h m (List.mem_cons_self m rest)
      simp only [List.map_cons, replace_system_content, if_neg hm]
      rw [ih (fun x hx => h x (List.mem_cons_of_mem m hx))]

/-- The messages of the state a worker step produces: the incoming messages
with any system contents replaced, then the appended LLM response. -/
lemma worker_messages (now : String) (wllm : List Msg → LLMReply) (s : State) :
    (worker now wllm s).messages =
      s.messages.map (replace_system_content (build_system_message now s.success_criteria s.feedback_on_work)) ++
        [(wllm (worker_llm_input (build_system_message now s.success_criteria s.feedback_on_work) s.messages)).toMsg] := rfl

/-- After a worker step the router inspects the freshly appended response:
it picks "tools" exactly when that response carries tool calls. -/
lemma worker_router_worker (now : String) (wllm : List Msg → LLMReply) (s : State) :
    worker_router (worker now wllm s) =
      some (if (wllm (worker_llm_input (build_system_message now s.success_criteria s.feedback_on_work) s.messages)).tool_calls ≠ [] then "tools" else "evaluator") := by
  unfold worker_router
  rw [worker_messages, List.getLast?_concat]
  rfl

/-- A terminal run of the graph ends with the final worker reply (an
assistant message carrying no tool calls) followed by the evaluator feedback
message. -/
lemma run_graph_terminal (now : String) (wllm : List Msg → LLMReply)
    (ellm : List Msg → EvaluatorOutput) (exec : ToolCall → String) :
    ∀ (fuel : Nat) (s final : State),
      run_graph now wllm ellm exec fuel s = some final →
      ∃ (pre : List Msg) (reply : Msg) (fb : String),
        final.messages =
          pre ++ [reply, Msg.mk Role.assistant ("Evaluator Feedback on this answer: " ++ fb) [] none] ∧
        reply.role = Role.assistant ∧ reply.tool_calls = [] := by
  intro fuel
  induction fuel with
  | zero => intro s final h; simp [run_graph] at h
  | succ n ih =>
      intro s final h
      rw [run_graph, worker_router_worker] at h
      by_cases htc :
          (wllm (worker_llm_input (build_system_message now s.success_criteria s.feedback_on_work) s.messages)).tool_calls = []
      · rw [if_neg (fun hc => hc htc)] at h
        have h2 :
            (if ("evaluator" : String) = "tools" then
              run_graph now wllm ellm exec n (tools_node exec (worker now wllm s))
            else
              if route_based_on_evaluation (evaluator ellm (worker now wllm s)) = "END" then
                some (evaluator ellm (worker now wllm s))
              else
                run_graph now wllm ellm exec n (evaluator ellm (worker now wllm s))) = some final := h
        rw [if_neg (by decide)] at h2
        by_cases hend : route_based_on_evaluation (evaluator ellm (worker now wllm s)) = "END"
        · rw [if_pos hend] at h2
          refine ⟨s.messages.map (replace_system_content (build_system_message now s.success_criteria s.feedback_on_work)),
            (wllm (worker_llm_input (build_system_message now s.success_criteria s.feedback_on_work) s.messages)).toMsg,
            (ellm (evaluator_messages (worker now wllm s))).feedback, ?_, rfl, htc⟩
          rw [← Option.some_inj.mp h2]
          show (worker now wllm s).messages ++ _ = _
          rw [worker_messages, List.append_assoc]
          rfl
        · rw [if_neg hend] at h2
          exact ih _ _ h2
      · rw [if_pos htc] at h
        have h2 :
            (if ("tools" : String) = "tools" then
              run_graph now wllm ellm exec n (tools_node exec (worker now wllm s))
            else
              if route_based_on_evaluation (evaluator ellm (worker now wllm s)) = "END" then
                some (evaluator ellm (worker now wllm s))
              else
                run_graph now wllm ellm exec n (evaluator ellm (worker now wllm s))) = some final := h
        rw [if_pos rfl] at h2
        exact ih _ _ h2

/-- One step of the transcript fold appends exactly the rendering of the
message it consumes. -/
lemma format_step_eq (conversation : String) (m : Msg) :
    format_step conversation m = conversation ++ render_turn m := by
  unfold format_step render_turn
  cases hr : m.role <;> simp [String.append_assoc, String.append_empty]

/-- The transcript fold, from any accumulator, appends the concatenated
per-turn renderings. -/
lemma foldl_format_step (msgs : List Msg) : ∀ acc : String,
    msgs.foldl format_step acc = acc ++ transcript msgs := by
  induction msgs with
  | nil => intro acc; simp [transcript, String.append_empty]
  | cons m rest ih =>
      intro acc
      rw [List.foldl_cons, ih, format_step_eq]
      simp [transcript, String.append_assoc]

/-- C1 counterexample: starting from a state holding one user message and no
system message, the state produced by a Worker step does not contain exactly
one system-role message at the head of the sequence — it contains none. The
system message the Worker builds is only prepended to the list passed to the
LLM, never to the persisted state, whose update appends just the response. -/
theorem worker_no_system_in_state_cex :
    ¬ ((worker "2025-01-01 00:00:00" ex_worker_llm ex_state).messages.countP
          (fun m => decide (m.role = Role.system)) = 1 ∧
       ((worker "2025-01-01 00:00:00" ex_worker_llm ex_state).messages.head?.map Msg.role =
          some Role.system)) := by
  decide

/-- C1 (amended): when the incoming state contains no system message, the
Worker prepends one to the sequence it passes to the LLM, and that sequence
contains exactly one system message, as its first element (when system
messages exist, their content is instead replaced in place). The Worker's
state update, however, appends only the LLM response, so the resulting
state's messages are the incoming ones followed by the response, and still
contain no system message. -/
theorem worker_system_message_amended (now : String) (llm : List Msg → LLMReply) (s : State)
    (h : ∀ m ∈ s.messages, m.role ≠ Role.system) :
    (worker_llm_input (build_system_message now s.success_criteria s.feedback_on_work) s.messages).head? =
      some (Msg.mk Role.system (build_system_message now s.success_criteria s.feedback_on_work) [] none) ∧
    (worker_llm_input (build_system_message now s.success_criteria s.feedback_on_work) s.messages).countP
      (fun m => decide (m.role = Role.system)) = 1 ∧
    (worker now llm s).messages =
      s.messages ++
        [(llm (worker_llm_input (build_system_message now s.success_criteria s.feedback_on_work) s.messages)).toMsg] ∧
    (worker now llm s).messages.countP (fun m => decide (m.role = Role.system)) = 0 := by
  have hany : s.messages.any (fun m => decide (m.role = Role.system)) = false := by
    rw [List.any_eq_false]
    intro m hm
    simpa using h m hm
  have hcount : s.messages.countP (fun m => decide (m.role = Role.system)) = 0 := by
    rw [List.countP_eq_zero]
    intro m hm
    simpa using h m hm
  have hinput : worker_llm_input (build_system_message now s.success_criteria s.feedback_on_work) s.messages =
      Msg.mk Role.system (build_system_message now s.success_criteria s.feedback_on_work) [] none :: s.messages := by
    unfold worker_llm_input
    rw [hany]
    simp
  refine ⟨?_, ?_, ?_, ?_⟩
  · rw [hinput]; rfl
  · rw [hinput, List.countP_cons]
    simp [hcount]
  · rw [worker_messages, map_replace_of_no_system _ _ h]
  · rw [worker_messages, map_replace_of_no_system _ _ h, List.countP_append, hcount]
    simp [LLMReply.toMsg]

/-- C1 amended, instantiated at a concrete state with no system message. -/
theorem worker_system_message_amended_witness :
    (∀ m ∈ ex_state.messages, m.role ≠ Role.system) ∧
    ((worker_llm_input (build_system_message "2025-01-01 00:00:00" ex_state.success_criteria ex_state.feedback_on_work) ex_state.messages).head? =
        some (Msg.mk Role.system (build_system_message "2025-01-01 00:00:00" ex_state.success_criteria ex_state.feedback_on_work) [] none) ∧
      (worker_llm_input (build_system_message "2025-01-01 00:00:00" ex_state.success_criteria ex_state.feedback_on_work) ex_state.messages).countP
        (fun m => decide (m.role = Role.system)) = 1 ∧
      (worker "2025-01-01 00:00:00" ex_worker_llm ex_state).messages =
        ex_state.messages ++
          [(ex_worker_llm (worker_llm_input (build_system_message "2025-01-01 00:00:00" ex_state.success_criteria ex_state.feedback_on_work) ex_state.messages)).toMsg] ∧
      (worker "2025-01-01 00:00:00" ex_worker_llm ex_state).messages.countP
        (fun m => decide (m.role = Role.system)) = 0) :=
  ⟨by decide, worker_system_message_amended "2025-01-01 00:00:00" ex_worker_llm ex_state (by decide)⟩

/-- C2 counterexample: with an empty visible history, a one-pass run of
run_superstep returns three new entries — the user message is appended to the
history as well — not the two entries the claim states. -/
theorem run_superstep_two_entries_cex :
    run_superstep "2025-01-01 00:00:00" ex_worker_llm ex_eval_llm ex_exec 3 ex_loaded
        "What is 2+2?" "numerically correct" [] =
      some [ChatEntry.mk "user" "What is 2+2?",
            ChatEntry.mk "assistant" "4",
            ChatEntry.mk "assistant" "Evaluator Feedback on this answer: Good"] ∧
    ¬ ([ChatEntry.mk "user" "What is 2+2?",
        ChatEntry.mk "assistant" "4",
        ChatEntry.mk "assistant" "Evaluator Feedback on this answer: Good"].length = 2) := by
  exact ⟨by decide, by decide⟩

/-- C2 (amended): for every terminating call to run_superstep with visible
history h, the returned history equals h extended by exactly three new
entries: the new user message, the last assistant reply preceding the
terminal evaluator feedback message, and that evaluator feedback message
itself. -/
theorem run_superstep_delta_amended (now : String) (wllm : List Msg → LLMReply)
    (ellm : List Msg → EvaluatorOutput) (exec : ToolCall → String) (fuel : Nat)
    (loaded : State) (message criteria : String) (history : List ChatEntry) (final : State)
    (hrun : run_graph now wllm ellm exec fuel (superstep_init loaded message criteria) = some final) :
    ∃ (reply : Msg) (fbtext : String),
      reply.role = Role.assistant ∧ reply.tool_calls = [] ∧
      final.messages.dropLast.getLast? = some reply ∧
      final.messages.getLast? =
        some (Msg.mk Role.assistant ("Evaluator Feedback on this answer: " ++ fbtext) [] none) ∧
      run_superstep now wllm ellm exec fuel loaded message criteria history =
        some (history ++
          [ChatEntry.mk "user" message,
           ChatEntry.mk "assistant" reply.content,
           ChatEntry.mk "assistant" ("Evaluator Feedback on this answer: " ++ fbtext)]) := by
  obtain ⟨pre, reply, fb, hm, hrole, htc⟩ := run_graph_terminal now wllm ellm exec fuel _ final hrun
  have hsplit : final.messages =
      (pre ++ [reply]) ++ [Msg.mk Role.assistant ("Evaluator Feedback on this answer: " ++ fb) [] none] := by
    rw [hm, List.append_assoc]
    rfl
  have hlast : final.messages.getLast? =
      some (Msg.mk Role.assistant ("Evaluator Feedback on this answer: " ++ fb) [] none) := by
    rw [hsplit, List.getLast?_concat]
  have hpen : final.messages.dropLast.getLast? = some reply := by
    rw [hsplit, List.dropLast_concat, List.getLast?_concat]
  refine ⟨reply, fb, hrole, htc, hpen, hlast, ?_⟩
  unfold run_superstep
  rw [hrun]
  show (match final.messages.getLast?, final.messages.dropLast.getLast? with
        | some last, some penult =>
            some (history ++
              [ChatEntry.mk "user" message,
               ChatEntry.mk "assistant" penult.content,
               ChatEntry.mk "assistant" last.content])
        | _, _ => none) =
      some (history ++
        [ChatEntry.mk "user" message,
         ChatEntry.mk "assistant" reply.content,
         ChatEntry.mk "assistant" ("Evaluator Feedback on this answer: " ++ fb)])
  rw [hlast, hpen]

/-- C2 amended, instantiated at a concrete one-pass run. -/
theorem run_superstep_delta_amended_witness :
    run_graph "2025-01-01 00:00:00" ex_worker_llm ex_eval_llm ex_exec 3
        (superstep_init ex_loaded "What is 2+2?" "numerically correct") = some ex_final ∧
    (∃ (reply : Msg) (fbtext : String),
      reply.role = Role.assistant ∧ reply.tool_calls = [] ∧
      ex_final.messages.dropLast.getLast? = some reply ∧
      ex_final.messages.getLast? =
        some (Msg.mk Role.assistant ("Evaluator Feedback on this answer: " ++ fbtext) [] none) ∧
      run_superstep "2025-01-01 00:00:00" ex_worker_llm ex_eval_llm ex_exec 3 ex_loaded
          "What is 2+2?" "numerically correct" [] =
        some ([] ++
          [ChatEntry.mk "user" "What is 2+2?",
           ChatEntry.mk "assistant" reply.content,
           ChatEntry.mk "assistant" ("Evaluator Feedback on this answer: " ++ fbtext)])) :=
  ⟨by decide,
   run_superstep_delta_amended "2025-01-01 00:00:00" ex_worker_llm ex_eval_llm ex_exec 3
     ex_loaded "What is 2+2?" "numerically correct" [] ex_final (by decide)⟩

/-- C3 counterexample: loading a state that carries evaluator feedback, the
state a new superstep starts from has no feedback — the input dict passes
feedback_on_work as None, which overwrites the loaded value instead of
preserving it. -/
theorem superstep_feedback_cex :
    (superstep_init (State.mk [] "c" (some "prior feedback") false false) "m" "c").feedback_on_work = none ∧
    ¬ ((State.mk [] "c" (some "prior feedback") false false).feedback_on_work = none) := by
  exact ⟨rfl, by decide⟩

/-- C3 (amended): at the start of every superstep, run_superstep resets
feedbackOnWork to None regardless of the value loaded for the session;
feedback is carried only between Worker and Evaluator passes within one
superstep, not across supersteps. -/
theorem superstep_feedback_reset (loaded : State) (message criteria : String) :
    (superstep_init loaded message criteria).feedback_on_work = none := rfl

/-- C4: the worker router is a pure total function of the last message only —
whenever the history's last message is m, it routes to "tools" iff m's
tool-call sequence is non-empty, and to "evaluator" iff it is empty. -/
theorem worker_router_spec (s : State) (m : Msg) (h : s.messages.getLast? = some m) :
    (worker_router s = some "tools" ↔ m.tool_calls ≠ []) ∧
    (worker_router s = some "evaluator" ↔ m.tool_calls = []) := by
  unfold worker_router
  rw [h]
  by_cases hc : m.tool_calls = [] <;> simp [hc]

/-- C4, instantiated at a history whose last message carries one tool call. -/
theorem worker_router_spec_witness :
    ex_tool_state.messages.getLast? = some (Msg.mk Role.assistant "" [ex_tool_call] none) ∧
    ((worker_router ex_tool_state = some "tools" ↔
        (Msg.mk Role.assistant "" [ex_tool_call] none).tool_calls ≠ []) ∧
     (worker_router ex_tool_state = some "evaluator" ↔
        (Msg.mk Role.assistant "" [ex_tool_call] none).tool_calls = [])) :=
  ⟨by decide, worker_router_spec ex_tool_state (Msg.mk Role.assistant "" [ex_tool_call] none) (by decide)⟩

/-- C5: route-based-on-evaluation is pure and total — for every state (hence
all four combinations of the two flags) it returns "END" iff
success_criteria_met or user_input_needed holds, and "worker" iff both are
clear. -/
theorem route_based_on_evaluation_spec (s : State) :
    (route_based_on_evaluation s = "END" ↔
      (s.success_criteria_met = true ∨ s.user_input_needed = true)) ∧
    (route_based_on_evaluation s = "worker" ↔
      (s.success_criteria_met = false ∧ s.user_input_needed = false)) := by
  unfold route_based_on_evaluation
  cases hm : s.success_criteria_met <;> cases hu : s.user_input_needed <;> simp

/-- C6: both evaluation flags are reset to false at the start of every
user-initiated superstep, and among the graph's nodes only the Evaluator sets
them: the Worker's state update preserves both flags, the criteria and the
feedback, adding nothing beyond the appended response (with system contents
replaced in place, the sole sanctioned mutation), and the Tools node's update
also preserves both flags. -/
theorem flags_reset_and_only_evaluator_sets (loaded : State) (message criteria now : String)
    (wllm : List Msg → LLMReply) (exec : ToolCall → String) (s : State) :
    (superstep_init loaded message criteria).success_criteria_met = false ∧
    (superstep_init loaded message criteria).user_input_needed = false ∧
    (worker now wllm s).success_criteria_met = s.success_criteria_met ∧
    (worker now wllm s).user_input_needed = s.user_input_needed ∧
    (worker now wllm s).success_criteria = s.success_criteria ∧
    (worker now wllm s).feedback_on_work = s.feedback_on_work ∧
    (worker now wllm s).messages =
      s.messages.map (replace_system_content (build_system_message now s.success_criteria s.feedback_on_work)) ++
        [(wllm (worker_llm_input (build_system_message now s.success_criteria s.feedback_on_work) s.messages)).toMsg] ∧
    (tools_node exec s).success_criteria_met = s.success_criteria_met ∧
    (tools_node exec s).user_input_needed = s.user_input_needed ∧
    (tools_node exec s).feedback_on_work = s.feedback_on_work :=
  ⟨rfl, rfl, rfl, rfl, rfl, rfl, rfl, rfl, rfl, rfl⟩

/-- C7: on a successful structured evaluation the Evaluator appends exactly
one new assistant-visible message whose content is the evaluation feedback
prefixed with "Evaluator Feedback on this answer: ", and sets
feedback_on_work, success_criteria_met and user_input_needed from the
corresponding fields of the EvaluationResult (the success criteria are left
untouched). -/
theorem evaluator_update_spec (llm : List Msg → EvaluatorOutput) (s : State) :
    (evaluator llm s).messages =
      s.messages ++
        [Msg.mk Role.assistant
          ("Evaluator Feedback on this answer: " ++ (llm (evaluator_messages s)).feedback) [] none] ∧
    (evaluator llm s).feedback_on_work = some (llm (evaluator_messages s)).feedback ∧
    (evaluator llm s).success_criteria_met = (llm (evaluator_messages s)).success_criteria_met ∧
    (evaluator llm s).user_input_needed = (llm (evaluator_messages s)).user_input_needed ∧
    (evaluator llm s).success_criteria = s.success_criteria :=
  ⟨rfl, rfl, rfl, rfl, rfl⟩

/-- C8: the transcript formatting renders the message sequence linearly as
the fixed header followed by the concatenated per-turn renderings; user turns
are prefixed distinctly ("User: ") from assistant turns ("Assistant: "); an
assistant turn with no text — in particular one carrying only tool calls —
is rendered as the "[Tools use]" placeholder, and system or tool messages
contribute nothing. -/
theorem format_conversation_spec (messages : List Msg) (c : String) (tc : List ToolCall)
    (cid : Option String) :
    format_conversation messages = "Conversation history:\n\n" ++ transcript messages ∧
    render_turn (Msg.mk Role.user c tc cid) = "User: " ++ c ++ "\n" ∧
    render_turn (Msg.mk Role.assistant c tc cid) =
      "Assistant: " ++ (if c = "" then "[Tools use]" else c) ++ "\n" ∧
    render_turn (Msg.mk Role.assistant "" tc cid) = "Assistant: [Tools use]\n" ∧
    render_turn (Msg.mk Role.system c tc cid) = "" ∧
    render_turn (Msg.mk Role.tool c tc cid) = "" ∧
    ("User: " : String) ≠ "Assistant: " :=
  ⟨foldl_format_step messages _, rfl, rfl, rfl, rfl, rfl, by decide⟩

/-- C9: at the start of every superstep the state's success criteria are set
to the default generic criterion when the caller-supplied text is empty, and
verbatim to the supplied text otherwise. -/
theorem superstep_success_criteria_spec (loaded : State) (message criteria : String) :
    (superstep_init loaded message criteria).success_criteria =
      (if criteria = "" then "The answer should be clear and accurate" else criteria) := rfl

/-- C10: for a Sidekick whose browser field is None (cleanup invoked before
setup completed, or after a failed setup), cleanup performs no
resource-release action; the falsy check skips the entire guarded body, so no
statement runs and the method returns normally without raising. -/
theorem cleanup_no_browser_noop (playwright : Option Unit) (loop_running : Bool) :
    cleanup none playwright loop_running = [] := rfl

end Sidekick
